import Mathlib

/-!
Shallow embedding of the `products` app of the ap-backend catalog service:
the data model rows, the queryset-building code of the view layer
(src/products/views.py), the serializers (src/products/serializers.py) and
the admin-side invariant enforcement (src/products/admin.py), together with
theorems settling the specification claims about them.

Rows are plain structures; a database state is a structure of row lists.
Django querysets become list pipelines: filter, sort, take.  Fields that the
claims never touch (images, descriptions) are kept as plain data so that the
record shapes match the source field lists.
-/

/-- A Category row: id, name, slug, optional parent id, display order,
active flag, creation timestamp. -/
structure Category where
  id : Nat
  name : String
  slug : String
  parent : Option Nat
  order : Nat
  is_active : Bool
  created_at : Nat
deriving Repr, DecidableEq

/-- A ProductColor row: owning product id, name, image, display order,
active flag. -/
structure ProductColor where
  id : Nat
  product_id : Nat
  name : String
  image : String
  order : Nat
  is_active : Bool
deriving Repr, DecidableEq

/-- A Product row.  Prices are decimals, modelled as rationals; offer price
is optional.  Four image slots as in the source model. -/
structure Product where
  id : Nat
  name : String
  description : String
  category_id : Nat
  regular_price : Rat
  offer_price : Option Rat
  image : Option String
  image2 : Option String
  image3 : Option String
  image4 : Option String
  stock : Nat
  is_active : Bool
  created_at : Nat
  updated_at : Nat
deriving Repr, DecidableEq

/-- A curation row (BestSelling and Hot have the same field list): a ranked
pointer to a product. -/
structure CurationEntry where
  id : Nat
  product_id : Nat
  order : Nat
  is_active : Bool
  created_at : Nat
  updated_at : Nat
deriving Repr, DecidableEq

/-- A Notification row. -/
structure NotificationRow where
  id : Nat
  message : String
  is_active : Bool
deriving Repr, DecidableEq

/-- A TrackingCode row. -/
structure TrackingCode where
  id : Nat
  name : String
  code : String
  is_active : Bool
  created_at : Nat
  updated_at : Nat
deriving Repr, DecidableEq

/-- The SiteSettings row: optional hero image plus updated timestamp. -/
structure SiteSettings where
  hero_image : Option String
  updated_at : Nat
deriving Repr, DecidableEq

/-- A database state: one list of rows per model. -/
structure DB where
  categories : List Category
  products : List Product
  colors : List ProductColor
  best_selling : List CurationEntry
  hot : List CurationEntry
  tracking_codes : List TrackingCode
deriving Repr, DecidableEq

/-- Maximum number of products in one homepage payload
(HOMEPAGE_PRODUCTS_LIMIT in src/products/views.py). -/
def HOMEPAGE_PRODUCTS_LIMIT : Nat := 100

/-- Look up a product row by primary key. -/
def findProduct (db : DB) (pid : Nat) : Option Product :=
  db.products.find? (fun p => p.id == pid)

/-- Look up a category row by primary key. -/
def findCategory (db : DB) (cid : Nat) : Option Category :=
  db.categories.find? (fun c => c.id == cid)

/-- The join condition product__is_active=True on a curation row: the
referenced product exists and is active. -/
def productActive (db : DB) (pid : Nat) : Bool :=
  (findProduct db pid).any (fun p => p.is_active)

/-- Descending creation order used by order_by of -created_at. -/
def byCreatedDesc (a b : Product) : Prop := b.created_at ≤ a.created_at

instance : DecidableRel byCreatedDesc := fun a b =>
  inferInstanceAs (Decidable (b.created_at ≤ a.created_at))

instance : IsTotal Product byCreatedDesc :=
  ⟨fun a b => le_total b.created_at a.created_at⟩

instance : IsTrans Product byCreatedDesc :=
  ⟨fun _ _ _ h h' => le_trans h' h⟩

/-- Ascending entry order used by order_by of order on curation rows. -/
def byOrderAsc (a b : CurationEntry) : Prop := a.order ≤ b.order

instance : DecidableRel byOrderAsc := fun a b =>
  inferInstanceAs (Decidable (a.order ≤ b.order))

instance : IsTotal CurationEntry byOrderAsc := ⟨fun a b => le_total a.order b.order⟩

instance : IsTrans CurationEntry byOrderAsc := ⟨fun _ _ _ h h' => le_trans h h'⟩

/-- The (order, name) lexicographic order used by order_by of order, name on
colors. -/
def byColorOrder (a b : ProductColor) : Prop :=
  a.order < b.order ∨ (a.order = b.order ∧ a.name ≤ b.name)

instance : DecidableRel byColorOrder := fun a b =>
  inferInstanceAs (Decidable (a.order < b.order ∨ (a.order = b.order ∧ a.name ≤ b.name)))

instance : IsTotal ProductColor byColorOrder := by
  constructor
  intro a b
  rcases lt_trichotomy a.order b.order with h | h | h
  · exact Or.inl (Or.inl h)
  · rcases le_total a.name b.name with hn | hn
    · exact Or.inl (Or.inr ⟨h, hn⟩)
    · exact Or.inr (Or.inr ⟨h.symm, hn⟩)
  · exact Or.inr (Or.inl h)

instance : IsTrans ProductColor byColorOrder := by
  constructor
  intro a b c hab hbc
  rcases hab with h1 | ⟨h1, h1n⟩
  · rcases hbc with h2 | ⟨h2, _⟩
    · exact Or.inl (lt_trans h1 h2)
    · exact Or.inl (h2 ▸ h1)
  · rcases hbc with h2 | ⟨h2, h2n⟩
    · exact Or.inl (h1 ▸ h2)
    · exact Or.inr ⟨h1.trans h2, le_trans h1n h2n⟩

/-- The prefetch queryset of _active_colors_prefetch in src/products/views.py:
active colors ordered by (order, name); the per-object relation cache holds
the rows of that queryset belonging to the given product. -/
def activeColorsCache (db : DB) (pid : Nat) : List ProductColor :=
  ((db.colors.filter (fun c => c.is_active)).insertionSort byColorOrder).filter
    (fun c => c.product_id == pid)

/-- Case-folded character list check used to model icontains: does the
second list start with the first. -/
def charsStarts : List Char → List Char → Bool
  | [], _ => true
  | _ :: _, [] => false
  | c :: cs, d :: ds => c == d && charsStarts cs ds

/-- Does the second character list contain the first as a contiguous run. -/
def charsHasSub (needle : List Char) : List Char → Bool
  | [] => charsStarts needle []
  | d :: ds => charsStarts needle (d :: ds) || charsHasSub needle ds

/-- Case-insensitive substring match modelling name__icontains. -/
def icontains (hay needle : String) : Bool :=
  charsHasSub needle.toLower.data hay.toLower.data

/-- Result of Category.objects.get: one match, no match (DoesNotExist), or
several matches (MultipleObjectsReturned, an uncaught exception). -/
inductive GetOne (α : Type) where
  | found (a : α)
  | notFound
  | multiple
deriving Repr, DecidableEq

/-- Evaluate objects.get on the list of rows matching the lookup. -/
def getOne {α : Type} : List α → GetOne α
  | [] => .notFound
  | [a] => .found a
  | _ :: _ :: _ => .multiple

/-- Base queryset of ProductViewSet.get_queryset: active products (the
select_related and prefetch_related clauses preload relation caches and do
not change which rows are returned). -/
def activeProducts (db : DB) : List Product :=
  db.products.filter (fun p => p.is_active)

/-- ProductViewSet.get_queryset of src/products/views.py.  Query parameters
are optional strings; an empty string is falsy in the Python conditionals.
Category filtering resolves the slug with objects.get restricted to active
categories: a missing category yields an empty queryset, several matches
raise, a top-level category widens the filter to its active children. -/
def ProductViewSet_get_queryset (db : DB) (search category : Option String) :
    Except String (List Product) :=
  let qs := activeProducts db
  let qs := match search with
    | some s => if s ≠ "" then qs.filter (fun p => icontains p.name s) else qs
    | none => qs
  match category with
  | none => Except.ok qs
  | some slug =>
    if slug = "" then Except.ok qs
    else
      match getOne (db.categories.filter (fun c => c.slug == slug && c.is_active)) with
      | .found cat =>
        match cat.parent with
        | none =>
          let child_ids :=
            (db.categories.filter (fun ch => ch.parent == some cat.id && ch.is_active)).map
              (fun ch => ch.id)
          Except.ok (qs.filter (fun p => (cat.id :: child_ids).contains p.category_id))
        | some _ => Except.ok (qs.filter (fun p => p.category_id == cat.id))
      | .notFound => Except.ok []
      | .multiple => Except.error "MultipleObjectsReturned"

/-- Products queryset of HomepageView.get: active products ordered by
-created_at, truncated to HOMEPAGE_PRODUCTS_LIMIT. -/
def homepageProductsQs (db : DB) : List Product :=
  ((activeProducts db).insertionSort byCreatedDesc).take HOMEPAGE_PRODUCTS_LIMIT

/-- Best-selling queryset of HomepageView.get: entries active with active
product, ordered by entry order ascending. -/
def homepageBestSellingQs (db : DB) : List CurationEntry :=
  (db.best_selling.filter (fun e => e.is_active && productActive db e.product_id)).insertionSort
    byOrderAsc

/-- Hot queryset of HomepageView.get: same filter and ordering over the hot
rows. -/
def homepageHotQs (db : DB) : List CurationEntry :=
  (db.hot.filter (fun e => e.is_active && productActive db e.product_id)).insertionSort
    byOrderAsc

/-- Modelled from the spec: models.py is not under src/, so the default Meta
ordering of the BestSelling model is missing; the spec states that
best-selling entries are ordered by entry order ascending, which is the
ordering the viewset queryset (which applies no order_by of its own)
inherits from the model. -/
def curationDefaultOrdering (rows : List CurationEntry) : List CurationEntry :=
  rows.insertionSort byOrderAsc

/-- BestSellingViewSet.get_queryset of src/products/views.py: filter on
entry and product active flags; row order comes from the model default
ordering. -/
def BestSellingViewSet_get_queryset (db : DB) : List CurationEntry :=
  curationDefaultOrdering
    (db.best_selling.filter (fun e => e.is_active && productActive db e.product_id))

/-- HotViewSet.get_queryset of src/products/views.py: same shape over the
hot rows. -/
def HotViewSet_get_queryset (db : DB) : List CurationEntry :=
  curationDefaultOrdering
    (db.hot.filter (fun e => e.is_active && productActive db e.product_id))

/-- Serialized shape of ProductCategorySerializer: id, name, slug and the
flattened parent fields. -/
structure ProductCategoryOut where
  id : Nat
  name : String
  slug : String
  parent_id : Option Nat
  parent_name : Option String
  parent_slug : Option String
deriving Repr, DecidableEq

/-- ProductCategorySerializer of src/products/serializers.py, reading the
preloaded parent relation. -/
def serializeProductCategory (db : DB) (c : Category) : ProductCategoryOut :=
  let pc := c.parent.bind (findCategory db)
  { id := c.id
    name := c.name
    slug := c.slug
    parent_id := pc.map (fun k => k.id)
    parent_name := pc.map (fun k => k.name)
    parent_slug := pc.map (fun k => k.slug) }

/-- Serialized shape of ProductColorSerializer. -/
structure ProductColorOut where
  id : Nat
  name : String
  image : String
  order : Nat
  is_active : Bool
deriving Repr, DecidableEq

/-- ProductColorSerializer of src/products/serializers.py. -/
def serializeProductColor (c : ProductColor) : ProductColorOut :=
  { id := c.id, name := c.name, image := c.image, order := c.order, is_active := c.is_active }

/-- Modelled from the spec: models.py is not under src/, so the
current_price model property read by the ProductSerializer ReadOnlyField is
missing; the spec defines it as the offer price if present and lower, else
the regular price. -/
def Product.current_price (p : Product) : Rat :=
  match p.offer_price with
  | some o => if o < p.regular_price then o else p.regular_price
  | none => p.regular_price

/-- Modelled from the spec: models.py is not under src/, so the has_offer
model property read by the ProductSerializer ReadOnlyField is missing; the
spec defines it as true exactly when an offer price is set and is less
than the regular price. -/
def Product.has_offer (p : Product) : Bool :=
  match p.offer_price with
  | some o => decide (o < p.regular_price)
  | none => false

/-- Serialized shape of ProductSerializer (read side of its field list). -/
structure ProductOut where
  id : Nat
  name : String
  description : String
  category : Option ProductCategoryOut
  category_slug : Option String
  regular_price : Rat
  offer_price : Option Rat
  current_price : Rat
  has_offer : Bool
  image : Option String
  image2 : Option String
  image3 : Option String
  image4 : Option String
  stock : Nat
  is_active : Bool
  colors : List ProductColorOut
  created_at : Nat
  updated_at : Nat
deriving Repr, DecidableEq

/-- ProductSerializer of src/products/serializers.py.  get_colors reads
only the preloaded relation cache (obj.colors.all), so its value here is a
function of activeColorsCache and never of a fresh per-product query. -/
def serializeProduct (db : DB) (p : Product) : ProductOut :=
  let cat := findCategory db p.category_id
  { id := p.id
    name := p.name
    description := p.description
    category := cat.map (serializeProductCategory db)
    category_slug := cat.map (fun c => c.slug)
    regular_price := p.regular_price
    offer_price := p.offer_price
    current_price := p.current_price
    has_offer := p.has_offer
    image := p.image
    image2 := p.image2
    image3 := p.image3
    image4 := p.image4
    stock := p.stock
    is_active := p.is_active
    colors := (activeColorsCache db p.id).map serializeProductColor
    created_at := p.created_at
    updated_at := p.updated_at }

/-- Serialized shape of BestSellingSerializer and HotSerializer: the entry
fields with the embedded full product shape. -/
structure CurationOut where
  id : Nat
  product : Option ProductOut
  order : Nat
  is_active : Bool
  created_at : Nat
  updated_at : Nat
deriving Repr, DecidableEq

/-- BestSellingSerializer and HotSerializer of src/products/serializers.py:
entry fields plus the embedded ProductSerializer output. -/
def serializeCuration (db : DB) (e : CurationEntry) : CurationOut :=
  { id := e.id
    product := (findProduct db e.product_id).map (serializeProduct db)
    order := e.order
    is_active := e.is_active
    created_at := e.created_at
    updated_at := e.updated_at }

/-- Serialized shape of TrackingCodeSerializer. -/
structure TrackingCodeOut where
  id : Nat
  name : String
  code : String
  is_active : Bool
  created_at : Nat
  updated_at : Nat
deriving Repr, DecidableEq

/-- TrackingCodeSerializer of src/products/serializers.py. -/
def serializeTrackingCode (t : TrackingCode) : TrackingCodeOut :=
  { id := t.id, name := t.name, code := t.code, is_active := t.is_active,
    created_at := t.created_at, updated_at := t.updated_at }

/-- Serialized shape of SiteSettingsSerializer: hero_image and updated_at
only. -/
structure SiteSettingsOut where
  hero_image : Option String
  updated_at : Nat
deriving Repr, DecidableEq

/-- SiteSettingsSerializer of src/products/serializers.py. -/
def serializeSiteSettings (s : SiteSettings) : SiteSettingsOut :=
  { hero_image := s.hero_image, updated_at := s.updated_at }

/-- Modelled from the spec: SiteSettingsView is imported by
src/products/urls.py but its definition is not under src/; the spec states
that GET /api/site-settings/ responds with the hero_image and updated_at of
the singleton SiteSettings row, serialized by SiteSettingsSerializer. -/
def SiteSettingsView_get (s : SiteSettings) : SiteSettingsOut :=
  serializeSiteSettings s

/-- The homepage response shape of HomepageView.get. -/
structure HomepageOut where
  products : List ProductOut
  best_selling : List CurationOut
  hot : List CurationOut
deriving Repr, DecidableEq

/-- HomepageView.get of src/products/views.py: the three querysets
serialized into one response object. -/
def HomepageView_get (db : DB) : HomepageOut :=
  { products := (homepageProductsQs db).map (serializeProduct db)
    best_selling := (homepageBestSellingQs db).map (serializeCuration db)
    hot := (homepageHotQs db).map (serializeCuration db) }

/-- TrackingCodeViewSet list queryset (the queryset attribute, line 160 of
src/products/views.py): active tracking codes, serialized. -/
def TrackingCodeViewSet_list (db : DB) : List TrackingCodeOut :=
  (db.tracking_codes.filter (fun t => t.is_active)).map serializeTrackingCode

/-- TrackingCodeViewSet.active action (line 167 of src/products/views.py):
its own filter on is_active, serialized with the same serializer. -/
def TrackingCodeViewSet_active (db : DB) : List TrackingCodeOut :=
  (db.tracking_codes.filter (fun t => t.is_active)).map serializeTrackingCode

/-- Modelled from the spec: models.py is not under src/, so the save
override of the Notification model is missing.  The spec (and the admin
fieldset text in src/products/admin.py) state that activating a
notification deactivates all others, enforced at the point of mutation, and
every exposed write path (viewset serializer save, admin form save) goes
through model save.  Saving with active set first deactivates every row,
then updates the row with the given id, or appends it when absent. -/
def notificationSave (rows : List NotificationRow) (nid : Nat) (msg : String)
    (active : Bool) : List NotificationRow :=
  let rows := if active then rows.map (fun r => { r with is_active := false }) else rows
  if rows.any (fun r => r.id == nid) then
    rows.map (fun r => if r.id == nid then { r with message := msg, is_active := active } else r)
  else
    rows ++ [⟨nid, msg, active⟩]

/-- A write operation on the notification table: create, update or
activate, all routed through save. -/
structure NotificationOp where
  nid : Nat
  msg : String
  active : Bool
deriving Repr, DecidableEq

/-- Run a sequence of notification writes from a starting table. -/
def runNotificationOps (rows : List NotificationRow) (ops : List NotificationOp) :
    List NotificationRow :=
  ops.foldl (fun rs op => notificationSave rs op.nid op.msg op.active) rows

/-- Number of active notification rows. -/
def countActive (rows : List NotificationRow) : Nat :=
  (rows.filter (fun r => r.is_active)).length

/-- NotificationViewSet.active of src/products/views.py: the first active
notification serialized, or the sentinel with empty message and inactive
flag. -/
def NotificationViewSet_active (rows : List NotificationRow) : String × Bool :=
  match rows.find? (fun r => r.is_active) with
  | some n => (n.message, n.is_active)
  | none => ("", false)

/-- SiteSettingsAdmin.has_add_permission of src/products/admin.py: adding
is allowed only while no SiteSettings row exists. -/
def SiteSettingsAdmin_has_add (rowCount : Nat) : Bool :=
  !(rowCount != 0)

/-- SiteSettingsAdmin.has_delete_permission of src/products/admin.py:
always false. -/
def SiteSettingsAdmin_has_delete : Bool :=
  false

/-- An administrative attempt on the SiteSettings table. -/
inductive SiteSettingsOp where
  | addRow
  | deleteRow
deriving Repr, DecidableEq

/-- Effect of one admin attempt on the SiteSettings row count: the add and
delete buttons are gated by the permission hooks, a refused attempt leaves
the table unchanged. -/
def siteSettingsStep (n : Nat) : SiteSettingsOp → Nat
  | .addRow => if SiteSettingsAdmin_has_add n then n + 1 else n
  | .deleteRow => if SiteSettingsAdmin_has_delete then n - 1 else n

/-- Run a sequence of admin attempts on the SiteSettings row count. -/
def runSiteSettingsOps (n : Nat) (ops : List SiteSettingsOp) : Nat :=
  ops.foldl siteSettingsStep n

/-- A small concrete database used to instantiate theorems: the spec
example of a Shoes category with a Sneakers child, products A in the
child, B in the parent, C elsewhere, one color and one tracking code. -/
def sampleDB : DB :=
  { categories :=
      [ { id := 1, name := "Shoes", slug := "shoes", parent := none, order := 0,
          is_active := true, created_at := 1 }
      , { id := 2, name := "Sneakers", slug := "sneakers", parent := some 1, order := 0,
          is_active := true, created_at := 2 }
      , { id := 3, name := "Other", slug := "other", parent := none, order := 1,
          is_active := true, created_at := 3 } ]
    products :=
      [ { id := 1, name := "A", description := "", category_id := 2, regular_price := 10,
          offer_price := some 8, image := none, image2 := none, image3 := none,
          image4 := none, stock := 5, is_active := true, created_at := 10, updated_at := 10 }
      , { id := 2, name := "B", description := "", category_id := 1, regular_price := 20,
          offer_price := none, image := none, image2 := none, image3 := none,
          image4 := none, stock := 3, is_active := true, created_at := 11, updated_at := 11 }
      , { id := 3, name := "C", description := "", category_id := 3, regular_price := 30,
          offer_price := none, image := none, image2 := none, image3 := none,
          image4 := none, stock := 1, is_active := true, created_at := 12, updated_at := 12 } ]
    colors :=
      [ { id := 1, product_id := 1, name := "red", image := "r.png", order := 0,
          is_active := true }
      , { id := 2, product_id := 1, name := "blue", image := "b.png", order := 0,
          is_active := false } ]
    best_selling :=
      [ { id := 1, product_id := 2, order := 1, is_active := true, created_at := 5,
          updated_at := 5 }
      , { id := 2, product_id := 1, order := 0, is_active := true, created_at := 6,
          updated_at := 6 } ]
    hot :=
      [ { id := 1, product_id := 3, order := 0, is_active := false, created_at := 7,
          updated_at := 7 } ]
    tracking_codes :=
      [ { id := 1, name := "pixel", code := "x", is_active := true, created_at := 1,
          updated_at := 1 }
      , { id := 2, name := "old", code := "y", is_active := false, created_at := 2,
          updated_at := 2 } ] }

/-- C4: GET /api/site-settings/ responds with an object containing exactly
the hero_image and updated_at fields of the singleton SiteSettings row. -/
theorem site_settings_endpoint_shape (s : SiteSettings) :
    SiteSettingsView_get s =
      { hero_image := s.hero_image, updated_at := s.updated_at } := by
  rfl

/-- C4 instantiated at a concrete settings row. -/
theorem site_settings_endpoint_shape_witness :
    SiteSettingsView_get { hero_image := some "hero.png", updated_at := 42 } =
      { hero_image := some "hero.png", updated_at := 42 } :=
  site_settings_endpoint_shape { hero_image := some "hero.png", updated_at := 42 }

/-- C8: for every product, the derived current_price is at most the
regular price, and has_offer holds exactly when an offer price is set and
is less than the regular price. -/
theorem product_price_derivations (p : Product) :
    p.current_price ≤ p.regular_price ∧
      (p.has_offer = true ↔ ∃ o, p.offer_price = some o ∧ o < p.regular_price) := by
  constructor
  · unfold Product.current_price
    match h : p.offer_price with
    | none => exact le_refl _
    | some o =>
      by_cases ho : o < p.regular_price
      · simp [ho, le_of_lt ho]
      · simp [ho]
  · unfold Product.has_offer
    match h : p.offer_price with
    | none => simp
    | some o => simp

/-- C8 instantiated at a concrete discounted product. -/
theorem product_price_derivations_witness :
    ({ id := 1, name := "A", description := "", category_id := 2, regular_price := 10,
       offer_price := some 8, image := none, image2 := none, image3 := none,
       image4 := none, stock := 5, is_active := true, created_at := 10,
       updated_at := 10 } : Product).current_price ≤ 10 ∧
      (({ id := 1, name := "A", description := "", category_id := 2, regular_price := 10,
          offer_price := some 8, image := none, image2 := none, image3 := none,
          image4 := none, stock := 5, is_active := true, created_at := 10,
          updated_at := 10 } : Product).has_offer = true ↔
        ∃ o, (some 8 : Option Rat) = some o ∧ o < 10) :=
  product_price_derivations _

/-- C10: the tracking-codes list endpoint and its active action apply the
same is_active filter and the same serializer, so they return the same
collection on every database state. -/
theorem tracking_codes_list_eq_active (db : DB) :
    TrackingCodeViewSet_list db = TrackingCodeViewSet_active db := by
  rfl

/-- C10 instantiated at the sample database. -/
theorem tracking_codes_list_eq_active_witness :
    TrackingCodeViewSet_list sampleDB = TrackingCodeViewSet_active sampleDB :=
  tracking_codes_list_eq_active sampleDB

/-- One admin attempt preserves the SiteSettings row-count bound and keeps
an existing singleton in place. -/
theorem siteSettingsStep_bound (n : Nat) (op : SiteSettingsOp) (h : n ≤ 1) :
    siteSettingsStep n op ≤ 1 ∧ (n = 1 → siteSettingsStep n op = n) := by
  cases op with
  | addRow =>
    by_cases h0 : n = 0
    · subst h0
      simp [siteSettingsStep, SiteSettingsAdmin_has_add]
    · have : (n != 0) = true := by simpa using h0
      refine ⟨?_, fun h1 => ?_⟩ <;>
        simp [siteSettingsStep, SiteSettingsAdmin_has_add, this, h]
  | deleteRow =>
    exact ⟨by simpa [siteSettingsStep, SiteSettingsAdmin_has_delete] using h,
      fun _ => by simp [siteSettingsStep, SiteSettingsAdmin_has_delete]⟩

/-- C6: starting from at most one SiteSettings row, any sequence of admin
add and delete attempts leaves at most one row, and once a row exists the
count stays exactly one: creation of a second row and deletion of the
existing row are both refused. -/
theorem site_settings_singleton (n : Nat) (ops : List SiteSettingsOp) (h : n ≤ 1) :
    runSiteSettingsOps n ops ≤ 1 ∧ (n = 1 → runSiteSettingsOps n ops = 1) := by
  induction ops generalizing n with
  | nil => exact ⟨h, fun h1 => h1⟩
  | cons op rest ih =>
    have hstep := siteSettingsStep_bound n op h
    have hrest := ih (siteSettingsStep n op) hstep.1
    refine ⟨hrest.1, fun h1 => ?_⟩
    have hkeep : siteSettingsStep n op = 1 := (hstep.2 h1).trans h1
    simpa [runSiteSettingsOps, hkeep] using hrest.2 hkeep

/-- C6 instantiated: from one existing row, an add attempt followed by a
delete attempt leaves exactly one row. -/
theorem site_settings_singleton_witness :
    (1 : Nat) ≤ 1 ∧
      (runSiteSettingsOps 1 [SiteSettingsOp.addRow, SiteSettingsOp.deleteRow] ≤ 1 ∧
        (1 = 1 → runSiteSettingsOps 1 [SiteSettingsOp.addRow, SiteSettingsOp.deleteRow] = 1)) :=
  ⟨by decide, site_settings_singleton 1 [SiteSettingsOp.addRow, SiteSettingsOp.deleteRow]
    (by decide)⟩

/-- C2: the products array of the homepage response never exceeds the
100-record cap, is ordered by creation timestamp descending, and contains
only active products. -/
theorem homepage_products_shape (db : DB) :
    (HomepageView_get db).products.length ≤ 100 ∧
    List.Sorted (fun a b : ProductOut => b.created_at ≤ a.created_at)
      (HomepageView_get db).products ∧
    ∀ r ∈ (HomepageView_get db).products, r.is_active = true := by
  refine ⟨?_, ?_, ?_⟩
  · show ((homepageProductsQs db).map (serializeProduct db)).length ≤ 100
    rw [List.length_map]
    exact List.length_take_le _ _
  · have hs : List.Sorted byCreatedDesc (homepageProductsQs db) :=
      List.Pairwise.sublist (List.take_sublist _ _) (List.sorted_insertionSort _ _)
    exact List.Pairwise.map (serializeProduct db) (fun a b h => h) hs
  · intro r hr
    rw [show (HomepageView_get db).products
        = (homepageProductsQs db).map (serializeProduct db) from rfl,
      List.mem_map] at hr
    obtain ⟨p, hp, rfl⟩ := hr
    have hp' : p ∈ (activeProducts db).insertionSort byCreatedDesc :=
      List.take_subset _ _ hp
    have hp'' : p ∈ activeProducts db :=
      (List.perm_insertionSort byCreatedDesc _).mem_iff.mp hp'
    exact (List.mem_filter.mp hp'').2

/-- C2 instantiated at the sample database. -/
theorem homepage_products_shape_witness :
    (HomepageView_get sampleDB).products.length ≤ 100 ∧
    List.Sorted (fun a b : ProductOut => b.created_at ≤ a.created_at)
      (HomepageView_get sampleDB).products ∧
    ∀ r ∈ (HomepageView_get sampleDB).products, r.is_active = true :=
  homepage_products_shape sampleDB

/-- C9: for every product, the color rows the serializer embeds are exactly
the active color variants of that product, sorted by (order, name); the
serialized colors array is the field-for-field image of that preloaded
relation cache, so serialization reads only the cache. -/
theorem product_colors_exact (db : DB) (p : Product) :
    (∀ c, c ∈ activeColorsCache db p.id ↔
        c ∈ db.colors ∧ c.product_id = p.id ∧ c.is_active = true) ∧
    List.Sorted byColorOrder (activeColorsCache db p.id) ∧
    (serializeProduct db p).colors = (activeColorsCache db p.id).map serializeProductColor ∧
    List.Sorted (fun a b : ProductColorOut =>
        a.order < b.order ∨ (a.order = b.order ∧ a.name ≤ b.name))
      (serializeProduct db p).colors := by
  have hsorted : List.Sorted byColorOrder (activeColorsCache db p.id) :=
    List.Pairwise.filter _ (List.sorted_insertionSort _ _)
  refine ⟨?_, hsorted, rfl, ?_⟩
  · intro c
    unfold activeColorsCache
    rw [List.mem_filter, (List.perm_insertionSort byColorOrder _).mem_iff, List.mem_filter]
    constructor
    · rintro ⟨⟨hmem, hact⟩, hpid⟩
      exact ⟨hmem, by simpa using hpid, hact⟩
    · rintro ⟨hmem, hpid, hact⟩
      exact ⟨⟨hmem, hact⟩, by simpa using hpid⟩
  · exact List.Pairwise.map serializeProductColor (fun a b h => h) hsorted

/-- The first sample product, used to instantiate theorems. -/
def sampleProductA : Product :=
  { id := 1, name := "A", description := "", category_id := 2, regular_price := 10,
    offer_price := some 8, image := none, image2 := none, image3 := none,
    image4 := none, stock := 5, is_active := true, created_at := 10, updated_at := 10 }

/-- C9 instantiated at the sample database and its first product. -/
theorem product_colors_exact_witness :
    (∀ c, c ∈ activeColorsCache sampleDB sampleProductA.id ↔
        c ∈ sampleDB.colors ∧ c.product_id = sampleProductA.id ∧ c.is_active = true) ∧
    List.Sorted byColorOrder (activeColorsCache sampleDB sampleProductA.id) ∧
    (serializeProduct sampleDB sampleProductA).colors
      = (activeColorsCache sampleDB sampleProductA.id).map serializeProductColor ∧
    List.Sorted (fun a b : ProductColorOut =>
        a.order < b.order ∨ (a.order = b.order ∧ a.name ≤ b.name))
      (serializeProduct sampleDB sampleProductA).colors :=
  product_colors_exact sampleDB sampleProductA

/-- Shared shape of the four curation querysets: membership is exactly the
conjunction of the entry active flag and the referenced product active
flag, and the list is sorted ascending by entry order. -/
theorem curationQs_spec (db : DB) (rows : List CurationEntry) :
    (∀ e, e ∈ (rows.filter
        (fun e => e.is_active && productActive db e.product_id)).insertionSort byOrderAsc ↔
        e ∈ rows ∧ e.is_active = true ∧ productActive db e.product_id = true) ∧
    List.Sorted byOrderAsc ((rows.filter
        (fun e => e.is_active && productActive db e.product_id)).insertionSort byOrderAsc) := by
  constructor
  · intro e
    rw [(List.perm_insertionSort _ _).mem_iff, List.mem_filter]
    simp [and_assoc]
  · exact List.sorted_insertionSort _ _

/-- C3: on every database state, the best-selling and hot collections of
the homepage and of the dedicated viewsets contain exactly the curation
entries that are active and reference an active product, sorted ascending
by entry order; the viewset querysets coincide with the homepage
querysets, and the homepage arrays are their serializations. -/
theorem curation_collections_active_sorted (db : DB) :
    (∀ e, e ∈ homepageBestSellingQs db ↔
        e ∈ db.best_selling ∧ e.is_active = true ∧ productActive db e.product_id = true) ∧
    List.Sorted byOrderAsc (homepageBestSellingQs db) ∧
    (∀ e, e ∈ homepageHotQs db ↔
        e ∈ db.hot ∧ e.is_active = true ∧ productActive db e.product_id = true) ∧
    List.Sorted byOrderAsc (homepageHotQs db) ∧
    BestSellingViewSet_get_queryset db = homepageBestSellingQs db ∧
    HotViewSet_get_queryset db = homepageHotQs db ∧
    (HomepageView_get db).best_selling = (homepageBestSellingQs db).map (serializeCuration db) ∧
    (HomepageView_get db).hot = (homepageHotQs db).map (serializeCuration db) := by
  obtain ⟨hb1, hb2⟩ := curationQs_spec db db.best_selling
  obtain ⟨hh1, hh2⟩ := curationQs_spec db db.hot
  exact ⟨hb1, hb2, hh1, hh2, rfl, rfl, rfl, rfl⟩

/-- C3 instantiated at the sample database. -/
theorem curation_collections_active_sorted_witness :
    (∀ e, e ∈ homepageBestSellingQs sampleDB ↔
        e ∈ sampleDB.best_selling ∧ e.is_active = true ∧
          productActive sampleDB e.product_id = true) ∧
    List.Sorted byOrderAsc (homepageBestSellingQs sampleDB) ∧
    (∀ e, e ∈ homepageHotQs sampleDB ↔
        e ∈ sampleDB.hot ∧ e.is_active = true ∧ productActive sampleDB e.product_id = true) ∧
    List.Sorted byOrderAsc (homepageHotQs sampleDB) ∧
    BestSellingViewSet_get_queryset sampleDB = homepageBestSellingQs sampleDB ∧
    HotViewSet_get_queryset sampleDB = homepageHotQs sampleDB ∧
    (HomepageView_get sampleDB).best_selling
      = (homepageBestSellingQs sampleDB).map (serializeCuration sampleDB) ∧
    (HomepageView_get sampleDB).hot
      = (homepageHotQs sampleDB).map (serializeCuration sampleDB) :=
  curation_collections_active_sorted sampleDB

/-- Membership in the base active-products queryset. -/
theorem mem_activeProducts (db : DB) (p : Product) :
    p ∈ activeProducts db ↔ p ∈ db.products ∧ p.is_active = true := by
  simp [activeProducts, List.mem_filter]

/-- Reduction of the category branch of ProductViewSet.get_queryset when
the slug is non-empty and resolves to exactly one active category. -/
theorem get_queryset_category_found (db : DB) (s : String) (hs : s ≠ "") (c : Category)
    (hres : db.categories.filter (fun k => k.slug == s && k.is_active) = [c]) :
    ProductViewSet_get_queryset db none (some s) =
      match c.parent with
      | none =>
        Except.ok ((activeProducts db).filter (fun p =>
          (c.id :: ((db.categories.filter
            (fun ch => ch.parent == some c.id && ch.is_active)).map
              (fun ch => ch.id))).contains p.category_id))
      | some _ => Except.ok ((activeProducts db).filter (fun p => p.category_id == c.id)) := by
  simp only [ProductViewSet_get_queryset, if_neg hs, hres, getOne]

/-- C1: for an active category c uniquely resolved by its slug, filtering
products by that slug returns the active products in c together with those
in any active child of c when c is top-level, and exactly the active
products in c itself when c has a parent. -/
theorem products_category_slug_filter (db : DB) (c : Category)
    (hres : db.categories.filter (fun k => k.slug == c.slug && k.is_active) = [c])
    (hslug : c.slug ≠ "") :
    ∃ l, ProductViewSet_get_queryset db none (some c.slug) = Except.ok l ∧
      (c.parent = none →
        ∀ p, p ∈ l ↔ p ∈ db.products ∧ p.is_active = true ∧
          (p.category_id = c.id ∨ ∃ ch ∈ db.categories, ch.is_active = true ∧
            ch.parent = some c.id ∧ p.category_id = ch.id)) ∧
      (∀ q, c.parent = some q →
        ∀ p, p ∈ l ↔ p ∈ db.products ∧ p.is_active = true ∧ p.category_id = c.id) := by
  have hred := get_queryset_category_found db c.slug hslug c hres
  cases hp : c.parent with
  | none =>
    rw [hp] at hred
    refine ⟨_, hred, ?_, fun q hq => Option.noConfusion hq⟩
    intro _ p
    rw [List.mem_filter, mem_activeProducts]
    constructor
    · rintro ⟨⟨hmem, hact⟩, hin⟩
      refine ⟨hmem, hact, ?_⟩
      have hin' : p.category_id ∈ c.id :: ((db.categories.filter
          (fun ch => ch.parent == some c.id && ch.is_active)).map (fun ch => ch.id)) := by
        simpa using hin
      rcases List.mem_cons.mp hin' with h | h
      · exact Or.inl h
      · obtain ⟨ch, hch, hid⟩ := List.mem_map.mp h
        obtain ⟨hchmem, hchp⟩ := List.mem_filter.mp hch
        refine Or.inr ⟨ch, hchmem, ?_, ?_, hid.symm⟩
        · exact (Bool.and_eq_true_iff.mp hchp).2
        · simpa using (Bool.and_eq_true_iff.mp hchp).1
    · rintro ⟨hmem, hact, hcase⟩
      refine ⟨⟨hmem, hact⟩, ?_⟩
      have hin' : p.category_id ∈ c.id :: ((db.categories.filter
          (fun ch => ch.parent == some c.id && ch.is_active)).map (fun ch => ch.id)) := by
        rcases hcase with h | ⟨ch, hchmem, hchact, hchp, hid⟩
        · exact List.mem_cons.mpr (Or.inl h)
        · refine List.mem_cons.mpr (Or.inr (List.mem_map.mpr ⟨ch, ?_, hid.symm⟩))
          exact List.mem_filter.mpr ⟨hchmem, by simp [hchp, hchact]⟩
      simpa using hin'
  | some q =>
    rw [hp] at hred
    refine ⟨_, hred, fun hnone => Option.noConfusion hnone, ?_⟩
    intro q' _ p
    rw [List.mem_filter, mem_activeProducts]
    constructor
    · rintro ⟨⟨hmem, hact⟩, hcat⟩
      exact ⟨hmem, hact, by simpa using hcat⟩
    · rintro ⟨hmem, hact, hcat⟩
      exact ⟨⟨hmem, hact⟩, by simpa using hcat⟩

/-- The Shoes category of the sample database. -/
def sampleShoes : Category :=
  { id := 1, name := "Shoes", slug := "shoes", parent := none, order := 0,
    is_active := true, created_at := 1 }

/-- C1 instantiated at the spec example: the Shoes category of the sample
database, with Product A in the Sneakers child and Product B directly in
Shoes. -/
theorem products_category_slug_filter_witness :
    sampleDB.categories.filter
      (fun k => k.slug == sampleShoes.slug && k.is_active) = [sampleShoes] ∧
    sampleShoes.slug ≠ "" ∧
    ∃ l, ProductViewSet_get_queryset sampleDB none (some sampleShoes.slug) = Except.ok l ∧
      (sampleShoes.parent = none →
        ∀ p, p ∈ l ↔ p ∈ sampleDB.products ∧ p.is_active = true ∧
          (p.category_id = sampleShoes.id ∨ ∃ ch ∈ sampleDB.categories, ch.is_active = true ∧
            ch.parent = some sampleShoes.id ∧ p.category_id = ch.id)) ∧
      (∀ q, sampleShoes.parent = some q →
        ∀ p, p ∈ l ↔ p ∈ sampleDB.products ∧ p.is_active = true ∧
          p.category_id = sampleShoes.id) :=
  ⟨by decide, by decide,
    products_category_slug_filter sampleDB sampleShoes (by decide) (by decide)⟩

/-- C7 as stated is false at the empty parameter value: the empty string
is not the slug of any active category of the sample database, yet the
Python truthiness check skips category filtering entirely, so the request
returns every active product instead of an empty list. -/
theorem unknown_category_value_cex :
    (∀ k ∈ sampleDB.categories, ¬(k.slug = "" ∧ k.is_active = true)) ∧
    ProductViewSet_get_queryset sampleDB none (some "") = Except.ok sampleDB.products ∧
    sampleDB.products ≠ [] :=
  ⟨by decide, rfl, by decide⟩

/-- C7 amended: for every non-empty value of the category parameter that is
not the slug of any active category, the product list endpoint succeeds
with an empty list. -/
theorem unknown_category_slug_empty (db : DB) (s : String) (hs : s ≠ "")
    (h : ∀ k ∈ db.categories, ¬(k.slug = s ∧ k.is_active = true)) :
    ProductViewSet_get_queryset db none (some s) = Except.ok [] := by
  have hfilter : db.categories.filter (fun k => k.slug == s && k.is_active) = [] := by
    rw [List.filter_eq_nil_iff]
    intro k hk
    have hnk := h k hk
    simp only [Bool.and_eq_true_iff, beq_iff_eq, not_and]
    intro h1 h2
    exact hnk ⟨h1, h2⟩
  simp only [ProductViewSet_get_queryset, if_neg hs, hfilter, getOne]

/-- C7 amended, instantiated at the sample database with an unknown slug. -/
theorem unknown_category_slug_empty_witness :
    ("nope" ≠ "") ∧ (∀ k ∈ sampleDB.categories, ¬(k.slug = "nope" ∧ k.is_active = true)) ∧
    ProductViewSet_get_queryset sampleDB none (some "nope") = Except.ok [] :=
  ⟨by decide, by decide, unknown_category_slug_empty sampleDB "nope" (by decide) (by decide)⟩

/-- Invariant carried across notification writes: row ids are
duplicate-free (primary keys) and at most one row is active. -/
def NotifInv (rows : List NotificationRow) : Prop :=
  (rows.map (fun r => r.id)).Nodup ∧ countActive rows ≤ 1

/-- Deactivating every row leaves no active row. -/
theorem countActive_deactivateAll (rows : List NotificationRow) :
    countActive (rows.map (fun r => { r with is_active := false })) = 0 := by
  induction rows with
  | nil => rfl
  | cons r rs ih =>
    simp only [countActive, List.map_cons, List.filter_cons] at ih ⊢
    simp [ih]

/-- Deactivating every row keeps the id list. -/
theorem deactivateAll_ids (rows : List NotificationRow) :
    (rows.map (fun r => { r with is_active := false })).map (fun r => r.id)
      = rows.map (fun r => r.id) := by
  rw [List.map_map]
  rfl

/-- Every row of the deactivated table is inactive. -/
theorem deactivateAll_inactive (rows : List NotificationRow) :
    ∀ r ∈ rows.map (fun r => { r with is_active := false }), r.is_active = false := by
  intro r hr
  obtain ⟨x, _, rfl⟩ := List.mem_map.mp hr
  rfl

/-- The update map of save keeps every row id. -/
theorem save_update_ids (rows : List NotificationRow) (nid : Nat) (msg : String)
    (active : Bool) :
    ((rows.map (fun r =>
        if r.id == nid then { r with message := msg, is_active := active } else r)).map
      (fun r => r.id)) = rows.map (fun r => r.id) := by
  rw [List.map_map]
  refine List.map_congr_left (fun r _ => ?_)
  by_cases h : r.id = nid <;> simp [Function.comp, h]

/-- If ids are duplicate-free and every active row carries one fixed id,
then at most one row is active. -/
theorem countActive_le_one_of_unique_id (rows : List NotificationRow) (v : Nat)
    (hnd : (rows.map (fun r => r.id)).Nodup)
    (hact : ∀ r ∈ rows, r.is_active = true → r.id = v) :
    countActive rows ≤ 1 := by
  induction rows with
  | nil => decide
  | cons r rs ih =>
    rw [List.map_cons, List.nodup_cons] at hnd
    by_cases h : r.is_active = true
    · have hz : (rs.filter (fun x => x.is_active)).length = 0 := by
        rw [List.length_eq_zero, List.filter_eq_nil_iff]
        intro x hx hxact
        have hxid : x.id = v := hact x (List.mem_cons_of_mem r hx) (by simpa using hxact)
        have hrid : r.id = v := hact r (List.mem_cons_self r rs) h
        exact hnd.1 (List.mem_map.mpr ⟨x, hx, by rw [hxid, hrid]⟩)
      simp [countActive, List.filter_cons, h, hz]
    · have hle := ih hnd.2 (fun x hx => hact x (List.mem_cons_of_mem r hx))
      simpa [countActive, List.filter_cons, h] using hle

/-- Updating one row to inactive never increases the active count. -/
theorem countActive_update_inactive_le (rows : List NotificationRow) (nid : Nat)
    (msg : String) :
    countActive (rows.map (fun r =>
        if r.id == nid then { r with message := msg, is_active := false } else r))
      ≤ countActive rows := by
  induction rows with
  | nil => exact le_refl _
  | cons r rs ih =>
    by_cases h : r.id = nid
    · by_cases ha : r.is_active = true
      · simpa [countActive, List.filter_cons, h, ha] using Nat.le_succ_of_le ih
      · simpa [countActive, List.filter_cons, h, ha] using ih
    · by_cases ha : r.is_active = true <;>
        simpa [countActive, List.filter_cons, h, ha] using ih

/-- Appending a row adds its own activity to the count. -/
theorem countActive_append_single (rows : List NotificationRow) (x : NotificationRow) :
    countActive (rows ++ [x]) = countActive rows + (if x.is_active then 1 else 0) := by
  by_cases hx : x.is_active = true <;>
    simp [countActive, List.filter_append, List.filter_cons, hx]

/-- Unfolding of save with the active flag set. -/
theorem notificationSave_true_def (rows : List NotificationRow) (nid : Nat) (msg : String) :
    notificationSave rows nid msg true =
      (if (rows.map (fun r => { r with is_active := false })).any (fun r => r.id == nid) then
        (rows.map (fun r => { r with is_active := false })).map (fun r =>
          if r.id == nid then { r with message := msg, is_active := true } else r)
      else (rows.map (fun r => { r with is_active := false })) ++ [⟨nid, msg, true⟩]) :=
  rfl

/-- Unfolding of save with the active flag clear. -/
theorem notificationSave_false_def (rows : List NotificationRow) (nid : Nat) (msg : String) :
    notificationSave rows nid msg false =
      (if rows.any (fun r => r.id == nid) then
        rows.map (fun r =>
          if r.id == nid then { r with message := msg, is_active := false } else r)
      else rows ++ [⟨nid, msg, false⟩]) :=
  rfl

/-- Appending a fresh id keeps the id list duplicate-free. -/
theorem nodup_ids_append_fresh (rows : List NotificationRow) (x : NotificationRow)
    (hnd : (rows.map (fun r => r.id)).Nodup)
    (hany : rows.any (fun r => r.id == x.id) = false) :
    ((rows ++ [x]).map (fun r => r.id)).Nodup := by
  rw [List.map_append, List.nodup_append]
  refine ⟨hnd, List.nodup_singleton _, ?_⟩
  intro a ha hb
  simp only [List.map_cons, List.map_nil, List.mem_singleton] at hb
  subst hb
  obtain ⟨y, hy, hyid⟩ := List.mem_map.mp ha
  have := List.any_eq_false.mp hany y hy
  simp [hyid] at this

/-- One save call preserves the notification invariant. -/
theorem notificationSave_inv (rows : List NotificationRow) (nid : Nat) (msg : String)
    (active : Bool) (h : NotifInv rows) : NotifInv (notificationSave rows nid msg active) := by
  obtain ⟨hnd, hcnt⟩ := h
  cases active with
  | true =>
    rw [notificationSave_true_def]
    have hnd0 : ((rows.map (fun r => { r with is_active := false })).map
        (fun r => r.id)).Nodup := by
      rw [deactivateAll_ids]
      exact hnd
    by_cases hany : (rows.map (fun r => { r with is_active := false })).any
        (fun r => r.id == nid) = true
    · rw [if_pos hany]
      constructor
      · rw [save_update_ids]
        exact hnd0
      · refine countActive_le_one_of_unique_id _ nid ?_ ?_
        · rw [save_update_ids]
          exact hnd0
        · intro r hr hract
          obtain ⟨x, hx, rfl⟩ := List.mem_map.mp hr
          by_cases hxid : x.id = nid
          · simp [hxid]
          · have hxin : x.is_active = false := deactivateAll_inactive rows x hx
            simp only [beq_iff_eq, if_neg hxid] at hract
            rw [hract] at hxin
            cases hxin
    · rw [if_neg hany]
      have hany' : (rows.map (fun r => { r with is_active := false })).any
          (fun r => r.id == nid) = false := by
        simpa using hany
      constructor
      · exact nodup_ids_append_fresh _ _ hnd0 hany'
      · refine countActive_le_one_of_unique_id _ nid
          (nodup_ids_append_fresh _ _ hnd0 hany') ?_
        intro r hr hract
        rcases List.mem_append.mp hr with hl | hl
        · have := deactivateAll_inactive rows r hl
          rw [hract] at this
          cases this
        · rw [List.mem_singleton] at hl
          subst hl
          rfl
  | false =>
    rw [notificationSave_false_def]
    by_cases hany : rows.any (fun r => r.id == nid) = true
    · rw [if_pos hany]
      constructor
      · rw [save_update_ids]
        exact hnd
      · exact le_trans (countActive_update_inactive_le rows nid msg) hcnt
    · rw [if_neg hany]
      have hany' : rows.any (fun r => r.id == nid) = false := by
        simpa using hany
      constructor
      · exact nodup_ids_append_fresh _ _ hnd hany'
      · rw [countActive_append_single]
        simpa using hcnt

/-- The invariant holds after any sequence of saves from a table that
already satisfies it. -/
theorem runNotificationOps_inv (ops : List NotificationOp) (rows : List NotificationRow)
    (h : NotifInv rows) : NotifInv (runNotificationOps rows ops) := by
  induction ops generalizing rows with
  | nil => exact h
  | cons op rest ih =>
    exact ih (notificationSave rows op.nid op.msg op.active)
      (notificationSave_inv rows op.nid op.msg op.active h)

/-- C5: after any sequence of notification writes starting from an empty
table, at most one notification is active; and saving a notification as
active deactivates every other notification, on every table. -/
theorem notification_single_active (ops : List NotificationOp) :
    countActive (runNotificationOps [] ops) ≤ 1 ∧
    ∀ rows nid msg, ∀ r ∈ notificationSave rows nid msg true, r.id ≠ nid →
      r.is_active = false := by
  constructor
  · exact (runNotificationOps_inv ops [] ⟨List.nodup_nil, by decide⟩).2
  · intro rows nid msg r hr hrid
    rw [notificationSave_true_def] at hr
    by_cases hany : (rows.map (fun r => { r with is_active := false })).any
        (fun r => r.id == nid) = true
    · rw [if_pos hany] at hr
      obtain ⟨x, hx, rfl⟩ := List.mem_map.mp hr
      by_cases hxid : x.id = nid
      · exact absurd (by simp [hxid]) hrid
      · have hxin : x.is_active = false := deactivateAll_inactive rows x hx
        simpa [hxid] using hxin
    · rw [if_neg hany] at hr
      rcases List.mem_append.mp hr with hl | hl
      · exact deactivateAll_inactive rows r hl
      · rw [List.mem_singleton] at hl
        subst hl
        exact absurd rfl hrid

/-- C5 instantiated: activating notification 2 while notification 1 is
active leaves at most one active row. -/
theorem notification_single_active_witness :
    countActive (runNotificationOps []
      [⟨1, "X", true⟩, ⟨2, "Y", true⟩]) ≤ 1 ∧
    ∀ rows nid msg, ∀ r ∈ notificationSave rows nid msg true, r.id ≠ nid →
      r.is_active = false :=
  notification_single_active [⟨1, "X", true⟩, ⟨2, "Y", true⟩]
